import Mathlib

/-!
Shallow embedding of the `@tokenring-ai/research` package.

The package exposes a research capability in two generations that both live
in the repository:

* a legacy tool handler `execute` in `src/tools/research.ts`, which validates
  `topic`/`prompt` by returning structured error results, looks up a
  hard-coded model id via `modelRegistry.chat.getFirstOnlineClient`, and
  catches dispatch failures, converting them to structured error results;
* the current service `ResearchService.runResearch` in
  `src/ResearchService.ts`, which looks up the configured `researchModel`
  via `chatModelRegistry.getClient` and does not catch dispatch failures,
  together with the current tool definition (`execute` in
  `src/unnamed/part_003`), which validates `topic`/`prompt` by throwing and
  delegates to `runResearch`.

External collaborators (model registry, chat client, chat output channel)
are modelled as oracles passed in explicitly; a thrown JS error is modelled
as `Except.error` carrying the error's message string.  Every observable
side effect (status lines, the registry lookup, the chat dispatch, artifact
output, analytics output) is recorded in an event trace so that claims
about which calls happen, how often, and with which payloads can be stated.
-/

/-- A single chat message, as in the `messages` arrays of the source. -/
structure ChatMessage where
  role : String
  content : String
deriving DecidableEq, Repr

/-- The request object passed to `textChat`.  The current service passes a
`tools: \x7b\x7d` field; the legacy tool handler omits it.  `hasTools`
records whether the field is present. -/
structure ChatRequest where
  hasTools : Bool
  messages : List ChatMessage
deriving DecidableEq, Repr

/-- The `usage` object optionally present on a chat response.  In the source
it is destructured from an `any`-typed value only to be interpolated into a
log line, so its fields are carried as the strings they are rendered as. -/
structure Usage where
  promptTokens : String
  completionTokens : String
  cost : String
deriving DecidableEq, Repr

/-- The second component of the pair returned by `textChat`. -/
structure ChatResponse where
  usage : Option Usage
deriving DecidableEq, Repr

/-- A chat client obtained from a model registry.  `getModelId` models the
`getModelId()` method; `textChat` may throw (modelled as `Except.error`
carrying the thrown error's message). -/
structure ChatClient where
  getModelId : String
  textChat : ChatRequest → Except String (String × ChatResponse)

/-- The legacy model registry collaborator (`modelRegistry.chat` in
`src/tools/research.ts`): `getFirstOnlineClient` resolves a model id or
throws. -/
structure ModelRegistryEnv where
  getFirstOnlineClient : String → Except String ChatClient

/-- The current model registry collaborator (`ChatModelRegistry` in
`src/ResearchService.ts`): `getClient` resolves a model id or throws. -/
structure ChatModelRegistryEnv where
  getClient : String → Except String ChatClient

/-- Observable side effects of a handler invocation, in order. -/
inductive Event where
  | systemLine (s : String)
  | chatOut (s : String)
  | infoMessage (s : String)
  | getClientCall (modelId : String)
  | textChatCall (req : ChatRequest)
  | artifactOutput (name encoding mimeType body : String)
  | analytics (toolName : String)
deriving DecidableEq, Repr

/-- `true` exactly on the events that invoke the model subsystem: the
registry lookup and the chat dispatch. -/
def Event.isModelCall : Event → Bool
  | Event.getClientCall _ => true
  | Event.textChatCall _ => true
  | _ => false

/-- `true` exactly on `textChatCall` events. -/
def Event.isTextChat : Event → Bool
  | Event.textChatCall _ => true
  | _ => false

/-- `true` exactly on `getClientCall` events. -/
def Event.isGetClient : Event → Bool
  | Event.getClientCall _ => true
  | _ => false

/-- The `ResearchResult` tagged union of the tool handlers:
`\x7bstatus:"completed", topic, research, message\x7d` or
`\x7bstatus:"error", topic, error, message\x7d`. -/
inductive ResearchResult where
  | completed (topic research message : String)
  | error (topic error message : String)
deriving DecidableEq, Repr

/-- `true` exactly on error-status results. -/
def ResearchResult.isError : ResearchResult → Bool
  | ResearchResult.error _ _ _ => true
  | _ => false

/-- The argument object of the legacy tool handler
(`ResearchArgs` in `src/tools/research.ts`): both fields optional. -/
structure ResearchArgs where
  topic : Option String
  prompt : Option String
deriving DecidableEq, Repr

/-- JavaScript falsiness of an optional string: `undefined` and `""` are
falsy (the `!topic` / `!prompt` checks of the source). -/
def strFalsy : Option String → Bool
  | none => true
  | some s => s == ""

/-- The user-message content template shared by every variant:
`` `Research the following topic: ${topic}, focusing on the following question: ${prompt}` ``. -/
def userContent (topic prompt : String) : String :=
  "Research the following topic: " ++ topic ++
    ", focusing on the following question: " ++ prompt

/-- The fixed system instruction of the legacy tool handler
(`src/tools/research.ts`, lines 75-77, including its "wbe" typo). -/
def legacySystemContent : String :=
  "You are a research assistant, tasked with researching a topic for the user, using web search. " ++
  "The users is going to ask you a question, and you will research that using the wbe search tool, and return detailed and comprehensive research on the topic."

/-- The fixed system instruction of the current service
(`src/ResearchService.ts`, lines 42-43). -/
def serviceSystemContent : String :=
  "You are a research assistant, tasked with researching a topic for the user, using web search. " ++
  "The users is going to ask you a question, and you will research that using the web search tool, and return detailed and comprehensive research on the topic."

/-- The chat payload built by the legacy tool handler (no `tools` field). -/
def legacyChatRequest (topic prompt : String) : ChatRequest :=
  { hasTools := false
    messages :=
      [ { role := "system", content := legacySystemContent }
      , { role := "user", content := userContent topic prompt } ] }

/-- The chat payload built by the current service (`tools: \x7b\x7d` present). -/
def serviceChatRequest (topic prompt : String) : ChatRequest :=
  { hasTools := true
    messages :=
      [ { role := "system", content := serviceSystemContent }
      , { role := "user", content := userContent topic prompt } ] }

/-- The hard-coded model id of the legacy tool handler. -/
def legacyModelId : String := "gemini-2.5-flash-web-search"

/-- `execute` from `src/tools/research.ts` (lines 33-116), instrumented with
an event trace.  The handler itself never throws: validation failures and
caught dispatch failures are returned as structured results, so the
`Except` layer is always `Except.ok`. -/
def executeTool (args : ResearchArgs) (env : ModelRegistryEnv) :
    Except String ResearchResult × List Event :=
  if strFalsy args.topic then
    (Except.ok (ResearchResult.error "" "Topic is required"
        "Failed to generate research, topic is required"),
      [Event.systemLine "[Research] Error: Topic is required"])
  else if strFalsy args.prompt then
    (Except.ok (ResearchResult.error "" "Prompt is required"
        "Failed to generate research, prompt is required"),
      [Event.systemLine "[Research] Error: Prompt is required"])
  else
    let topic := args.topic.getD ""
    let prompt := args.prompt.getD ""
    let ev1 := [Event.systemLine
      ("[Research] Dispatching research request for \"" ++ topic ++ "\" to Gemini")]
    let ev2 := ev1 ++ [Event.getClientCall legacyModelId]
    match env.getFirstOnlineClient legacyModelId with
    | Except.error e =>
        (Except.ok (ResearchResult.error topic e
            ("Failed to generate research for topic: " ++ topic)),
          ev2 ++ [Event.systemLine ("[Research] Error generating research: " ++ e)])
    | Except.ok client =>
        let req := legacyChatRequest topic prompt
        let ev3 := ev2 ++ [Event.textChatCall req]
        match client.textChat req with
        | Except.error e =>
            (Except.ok (ResearchResult.error topic e
                ("Failed to generate research for topic: " ++ topic)),
              ev3 ++ [Event.systemLine ("[Research] Error generating research: " ++ e)])
        | Except.ok (research, response) =>
            let ev4 := ev3 ++
              [ Event.systemLine
                  ("[Research] Successfully generated research for \"" ++ topic ++ "\"")
              , Event.chatOut ("Research: \n" ++ research ++ "\"") ]
            let ev5 :=
              match response.usage with
              | some u => ev4 ++ [Event.systemLine
                  ("[Research] Token usage - promptTokens: " ++ u.promptTokens ++
                    ", completionTokens: " ++ u.completionTokens ++ ", cost: " ++ u.cost)]
              | none => ev4
            (Except.ok (ResearchResult.completed topic research
                ("Research completed successfully for topic: " ++ topic)),
              ev5)

/-- `ResearchServiceConfig` from `src/ResearchService.ts`. -/
structure ResearchServiceConfig where
  researchModel : String
deriving DecidableEq, Repr

/-- `ResearchService` from `src/ResearchService.ts`: its only state is the
constructor-supplied `options`. -/
structure ResearchService where
  options : ResearchServiceConfig
deriving DecidableEq, Repr

/-- The `const name = "research_run"` constant of the current sources. -/
def researchRunName : String := "research_run"

/-- The outcome of a `runResearch` call: the returned string or the thrown
error's message, the event trace, and the service's state afterwards
(threaded explicitly so that mutation claims are statable). -/
structure RunOutcome where
  result : Except String String
  trace : List Event
  service : ResearchService
deriving Repr

/-- `ResearchService.runResearch` from `src/ResearchService.ts`
(lines 25-65), instrumented with an event trace.  There is no `try/catch`:
a registry-lookup or `textChat` failure propagates. -/
def ResearchService.runResearch (svc : ResearchService) (topic prompt : String)
    (env : ChatModelRegistryEnv) : RunOutcome :=
  let ev1 := [Event.getClientCall svc.options.researchModel]
  match env.getClient svc.options.researchModel with
  | Except.error e => { result := Except.error e, trace := ev1, service := svc }
  | Except.ok aiChatClient =>
      let ev2 := ev1 ++ [Event.infoMessage
        ("[Research] Dispatching research request for \"" ++ topic ++ "\" to " ++
          aiChatClient.getModelId)]
      let req := serviceChatRequest topic prompt
      let ev3 := ev2 ++ [Event.textChatCall req]
      match aiChatClient.textChat req with
      | Except.error e => { result := Except.error e, trace := ev3, service := svc }
      | Except.ok (research, _response) =>
          let ev4 := ev3 ++
            [ Event.infoMessage
                ("[" ++ researchRunName ++ "] Successfully generated research for \"" ++
                  topic ++ "\"")
            , Event.artifactOutput ("Research on " ++ topic) "text" "text/markdown"
                ("Topic: " ++ topic ++ "\nPrompt: " ++ prompt ++ "\n\nResult: " ++ research)
            , Event.analytics researchRunName ]
          { result := Except.ok research, trace := ev4, service := svc }

/-- `execute` from `src/unnamed/part_003` (lines 29-52), the current tool
definition, instrumented.  Its input schema types `topic` and `prompt` as
required strings, so the arguments are plain strings and `!topic` means
`topic === ""`.  Validation failures throw; `runResearch` failures
propagate. -/
def executeResearchRun (topic prompt : String) (svc : ResearchService)
    (env : ChatModelRegistryEnv) :
    Except String ResearchResult × List Event × ResearchService :=
  if topic == "" then
    (Except.error ("[" ++ researchRunName ++ "] Error: Topic is required"), [], svc)
  else if prompt == "" then
    (Except.error ("[" ++ researchRunName ++ "] Error: Prompt is required"), [], svc)
  else
    let out := svc.runResearch topic prompt env
    match out.result with
    | Except.error e => (Except.error e, out.trace, out.service)
    | Except.ok research =>
        (Except.ok (ResearchResult.completed topic research
            ("Research completed successfully for topic: " ++ topic)),
          out.trace, out.service)

/-! ## Concrete collaborator fixtures (mock registries and clients) -/

/-- A mock client that returns the fixed text `r` with no usage metadata. -/
def okClient (r : String) : ChatClient :=
  { getModelId := "m-ok", textChat := fun _ => Except.ok (r, { usage := none }) }

/-- A mock legacy registry whose lookup always succeeds with `okClient "R"`. -/
def toolEnvOk : ModelRegistryEnv :=
  { getFirstOnlineClient := fun _ => Except.ok (okClient "R") }

/-- A mock legacy registry whose lookup always throws. -/
def toolEnvDown : ModelRegistryEnv :=
  { getFirstOnlineClient := fun _ => Except.error "registry down" }

/-- A mock client whose `textChat` always throws. -/
def throwingClient : ChatClient :=
  { getModelId := "m-bad", textChat := fun _ => Except.error "boom" }

/-- A mock legacy registry that resolves to the throwing client. -/
def toolEnvThrow : ModelRegistryEnv :=
  { getFirstOnlineClient := fun _ => Except.ok throwingClient }

/-- A mock current registry whose lookup always succeeds with `okClient "R"`. -/
def svcEnvOk : ChatModelRegistryEnv :=
  { getClient := fun _ => Except.ok (okClient "R") }

/-- A mock current registry that resolves to the throwing client. -/
def svcEnvThrow : ChatModelRegistryEnv :=
  { getClient := fun _ => Except.ok throwingClient }

/-- A service configured with a concrete model identifier. -/
def svc0 : ResearchService := { options := { researchModel := "research-model-x" } }

/-! ## Structural lemmas about the event traces -/

/-- Every `textChatCall` event of the legacy handler carries exactly the
payload `legacyChatRequest topic prompt`. -/
theorem executeTool_textChat_mem (args : ResearchArgs) (env : ModelRegistryEnv)
    (req : ChatRequest) (h : Event.textChatCall req ∈ (executeTool args env).2) :
    req = legacyChatRequest (args.topic.getD "") (args.prompt.getD "") := by
  unfold executeTool at h
  repeat' split at h <;> try simp_all

/-- Every `getClientCall` event of the legacy handler carries the
hard-coded model id. -/
theorem executeTool_getClient_mem (args : ResearchArgs) (env : ModelRegistryEnv)
    (m : String) (h : Event.getClientCall m ∈ (executeTool args env).2) :
    m = legacyModelId := by
  unfold executeTool at h
  repeat' split at h <;> try simp_all

/-- Every `textChatCall` event of `runResearch` carries exactly the payload
`serviceChatRequest topic prompt`. -/
theorem runResearch_textChat_mem (svc : ResearchService) (topic prompt : String)
    (env : ChatModelRegistryEnv) (req : ChatRequest)
    (h : Event.textChatCall req ∈ (svc.runResearch topic prompt env).trace) :
    req = serviceChatRequest topic prompt := by
  unfold ResearchService.runResearch at h
  repeat' split at h <;> try simp_all

/-- Every `getClientCall` event of `runResearch` carries the configured
`researchModel`. -/
theorem runResearch_getClient_mem (svc : ResearchService) (topic prompt : String)
    (env : ChatModelRegistryEnv) (m : String)
    (h : Event.getClientCall m ∈ (svc.runResearch topic prompt env).trace) :
    m = svc.options.researchModel := by
  unfold ResearchService.runResearch at h
  repeat' split at h <;> try simp_all

/-- The legacy handler performs at most one chat dispatch and at most one
registry lookup per invocation. -/
theorem executeTool_calls_once (args : ResearchArgs) (env : ModelRegistryEnv) :
    (executeTool args env).2.countP Event.isTextChat ≤ 1 ∧
    (executeTool args env).2.countP Event.isGetClient ≤ 1 := by
  unfold executeTool
  repeat' split <;>
    try simp [List.countP_append, List.countP_cons, Event.isTextChat, Event.isGetClient]

/-- `runResearch` performs at most one chat dispatch and at most one
registry lookup per invocation. -/
theorem runResearch_calls_once (svc : ResearchService) (topic prompt : String)
    (env : ChatModelRegistryEnv) :
    (svc.runResearch topic prompt env).trace.countP Event.isTextChat ≤ 1 ∧
    (svc.runResearch topic prompt env).trace.countP Event.isGetClient ≤ 1 := by
  unfold ResearchService.runResearch
  repeat' split <;>
    try simp [List.countP_append, List.countP_cons, Event.isTextChat, Event.isGetClient]

/-- The current tool's trace is either empty (validation failed) or exactly
the trace of the underlying `runResearch` call. -/
theorem executeResearchRun_trace (t p : String) (svc : ResearchService)
    (env : ChatModelRegistryEnv) :
    (executeResearchRun t p svc env).2.1 = [] ∨
    (executeResearchRun t p svc env).2.1 = (svc.runResearch t p env).trace := by
  unfold executeResearchRun
  repeat' split <;> try simp_all

/-! ## Claim theorems -/

/-- C1: for every call with missing/empty `topic` or missing/empty `prompt`,
both handler generations return or raise an error without invoking the model
client: the legacy handler returns an error-status result and its trace
contains no registry-lookup or `textChat` event, and the current tool throws
with an empty trace. -/
theorem rejects_missing_fields_before_model_call
    (args : ResearchArgs) (env : ModelRegistryEnv)
    (t p : String) (svc : ResearchService) (env2 : ChatModelRegistryEnv)
    (h1 : strFalsy args.topic = true ∨ strFalsy args.prompt = true)
    (h2 : t = "" ∨ p = "") :
    ((executeTool args env).2.all (fun e => !e.isModelCall) = true ∧
      ∃ r, (executeTool args env).1 = Except.ok r ∧ r.isError = true) ∧
    ((executeResearchRun t p svc env2).2.1 = [] ∧
      ∃ msg, (executeResearchRun t p svc env2).1 = Except.error msg) := by
  constructor
  · unfold executeTool
    rcases h1 with h | h
    · simp [h, Event.isModelCall, ResearchResult.isError]
    · by_cases hT : strFalsy args.topic = true <;>
        simp [hT, h, Event.isModelCall, ResearchResult.isError]
  · unfold executeResearchRun
    rcases h2 with h | h
    · subst h; simp
    · subst h
      by_cases hT : (t == "") = true <;> simp [hT]

/-- C1 witness: a missing topic (legacy handler) and an empty topic (current
tool) are rejected with no model call. -/
theorem rejects_missing_fields_before_model_call_witness :
    ((executeTool { topic := none, prompt := some "p" } toolEnvOk).2.all
        (fun e => !e.isModelCall) = true ∧
      ∃ r, (executeTool { topic := none, prompt := some "p" } toolEnvOk).1 =
          Except.ok r ∧ r.isError = true) ∧
    ((executeResearchRun "" "q" svc0 svcEnvOk).2.1 = [] ∧
      ∃ msg, (executeResearchRun "" "q" svc0 svcEnvOk).1 = Except.error msg) :=
  rejects_missing_fields_before_model_call { topic := none, prompt := some "p" }
    toolEnvOk "" "q" svc0 svcEnvOk (Or.inl rfl) (Or.inl rfl)

/-- C2 counterexample: for the valid pair `("t","p")` and a registry
resolving to a client whose `textChat` throws `"boom"`, the current tool
(`src/unnamed/part_003` delegating to `ResearchService.runResearch`, which
has no `try/catch`) raises — it does not return a structured error
result. -/
theorem dispatch_failure_raises_in_current_tool :
    (executeResearchRun "t" "p" svc0 svcEnvThrow).1 = Except.error "boom" := by rfl

/-- C2 amended: in the legacy tool handler (`src/tools/research.ts`), a
registry-lookup or chat-client failure with message `e` is caught and
returned as the structured result
`\x7bstatus:"error", topic, error: e, message: "Failed to generate research
for topic: <topic>"\x7d`; the current tool (`src/unnamed/part_003` via
`ResearchService.runResearch`) instead propagates the failure to the
caller. -/
theorem legacy_tool_returns_structured_error_on_dispatch_failure
    (t p : String) (env : ModelRegistryEnv)
    (ht : strFalsy (some t) = false) (hp : strFalsy (some p) = false) :
    (∀ e, env.getFirstOnlineClient legacyModelId = Except.error e →
      (executeTool { topic := some t, prompt := some p } env).1 =
        Except.ok (ResearchResult.error t e
          ("Failed to generate research for topic: " ++ t))) ∧
    (∀ c e, env.getFirstOnlineClient legacyModelId = Except.ok c →
      c.textChat (legacyChatRequest t p) = Except.error e →
      (executeTool { topic := some t, prompt := some p } env).1 =
        Except.ok (ResearchResult.error t e
          ("Failed to generate research for topic: " ++ t))) ∧
    (∀ svc env2 e, (svc.runResearch t p env2).result = Except.error e →
      (executeResearchRun t p svc env2).1 = Except.error e) := by
  have ht' : (t == "") = false := ht
  have hp' : (p == "") = false := hp
  refine ⟨?_, ?_, ?_⟩
  · intro e he
    unfold executeTool
    simp [strFalsy, ht', hp', he]
  · intro c e hc he
    unfold executeTool
    simp [strFalsy, ht', hp', hc, he]
  · intro svc env2 e he
    unfold executeResearchRun
    simp [ht', hp', he]

/-- C2 amended witness: with a lookup that throws `"registry down"`, the
legacy handler returns the structured error result, and with a client that
throws `"boom"`, the current tool propagates `"boom"`. -/
theorem legacy_tool_returns_structured_error_on_dispatch_failure_witness :
    (executeTool { topic := some "a", prompt := some "b" } toolEnvDown).1 =
      Except.ok (ResearchResult.error "a" "registry down"
        ("Failed to generate research for topic: " ++ "a")) ∧
    (executeResearchRun "a" "b" svc0 svcEnvThrow).1 = Except.error "boom" :=
  ⟨(legacy_tool_returns_structured_error_on_dispatch_failure "a" "b" toolEnvDown
      rfl rfl).1 "registry down" rfl,
    (legacy_tool_returns_structured_error_on_dispatch_failure "a" "b" toolEnvDown
      rfl rfl).2.2 svc0 svcEnvThrow "boom" rfl⟩

/-- C3: for every valid `(topic, prompt)` pair, when the resolved chat
client returns text `R`, both handler generations return exactly
`\x7bstatus:"completed", topic: <input topic unchanged>, research: R,
message: "Research completed successfully for topic: <topic>"\x7d`. -/
theorem success_result_shape
    (t p R : String) (env : ModelRegistryEnv)
    (svc : ResearchService) (env2 : ChatModelRegistryEnv)
    (ht : strFalsy (some t) = false) (hp : strFalsy (some p) = false) :
    (∀ c resp, env.getFirstOnlineClient legacyModelId = Except.ok c →
      c.textChat (legacyChatRequest t p) = Except.ok (R, resp) →
      (executeTool { topic := some t, prompt := some p } env).1 =
        Except.ok (ResearchResult.completed t R
          ("Research completed successfully for topic: " ++ t))) ∧
    (∀ c resp, env2.getClient svc.options.researchModel = Except.ok c →
      c.textChat (serviceChatRequest t p) = Except.ok (R, resp) →
      (executeResearchRun t p svc env2).1 =
        Except.ok (ResearchResult.completed t R
          ("Research completed successfully for topic: " ++ t))) := by
  have ht' : (t == "") = false := ht
  have hp' : (p == "") = false := hp
  constructor
  · intro c resp hc hchat
    unfold executeTool
    simp only [strFalsy, ht', hp', Bool.false_eq_true, if_false, hc, Option.getD_some]
    rw [hchat]
  · intro c resp hc hchat
    unfold executeResearchRun ResearchService.runResearch
    simp [ht', hp', hc, hchat]

/-- C3 witness: with a mock client returning `"R"` both handler generations
yield the completed result for topic `"Quantum Computing"`. -/
theorem success_result_shape_witness :
    (executeTool { topic := some "Quantum Computing", prompt := some "latest breakthroughs" }
        toolEnvOk).1 =
      Except.ok (ResearchResult.completed "Quantum Computing" "R"
        ("Research completed successfully for topic: " ++ "Quantum Computing")) ∧
    (executeResearchRun "Quantum Computing" "latest breakthroughs" svc0 svcEnvOk).1 =
      Except.ok (ResearchResult.completed "Quantum Computing" "R"
        ("Research completed successfully for topic: " ++ "Quantum Computing")) :=
  ⟨(success_result_shape "Quantum Computing" "latest breakthroughs" "R" toolEnvOk
      svc0 svcEnvOk rfl rfl).1 (okClient "R") { usage := none } rfl rfl,
    (success_result_shape "Quantum Computing" "latest breakthroughs" "R" toolEnvOk
      svc0 svcEnvOk rfl rfl).2 (okClient "R") { usage := none } rfl rfl⟩

/-- C4: for arbitrary topic and prompt strings, the user-message content of
every chat payload actually dispatched (by either handler generation) is
exactly `"Research the following topic: " ++ topic ++ ", focusing on the
following question: " ++ prompt` — plain concatenation, no escaping or
transformation. -/
theorem user_message_exact_template
    (t p : String) (env : ModelRegistryEnv) (svc : ResearchService)
    (env2 : ChatModelRegistryEnv) (req req2 : ChatRequest)
    (h1 : Event.textChatCall req ∈
      (executeTool { topic := some t, prompt := some p } env).2)
    (h2 : Event.textChatCall req2 ∈ (svc.runResearch t p env2).trace) :
    (req.messages.map ChatMessage.content).getLast? =
      some ("Research the following topic: " ++ t ++
        ", focusing on the following question: " ++ p) ∧
    (req2.messages.map ChatMessage.content).getLast? =
      some ("Research the following topic: " ++ t ++
        ", focusing on the following question: " ++ p) := by
  have e1 := executeTool_textChat_mem _ _ _ h1
  have e2 := runResearch_textChat_mem _ _ _ _ _ h2
  subst e1; subst e2
  constructor <;> simp [legacyChatRequest, serviceChatRequest, userContent]

/-- C4 witness: for the special-character inputs `topic = "a&<b>"` and
`prompt = "c, \"d\""`, the dispatched user message is the verbatim
concatenation, in both handler generations. -/
theorem user_message_exact_template_witness :
    ((legacyChatRequest ((some "a&<b>").getD "") ((some "c, \"d\"").getD "")).messages.map
        ChatMessage.content).getLast? =
      some ("Research the following topic: " ++ "a&<b>" ++
        ", focusing on the following question: " ++ "c, \"d\"") ∧
    ((serviceChatRequest "a&<b>" "c, \"d\"").messages.map
        ChatMessage.content).getLast? =
      some ("Research the following topic: " ++ "a&<b>" ++
        ", focusing on the following question: " ++ "c, \"d\"") :=
  user_message_exact_template "a&<b>" "c, \"d\"" toolEnvOk svc0 svcEnvOk
    (legacyChatRequest ((some "a&<b>").getD "") ((some "c, \"d\"").getD ""))
    (serviceChatRequest "a&<b>" "c, \"d\"")
    (by simp [executeTool, toolEnvOk, okClient, strFalsy])
    (by simp [ResearchService.runResearch, svcEnvOk, okClient, svc0])

/-- C5: every registry lookup performed by `ResearchService.runResearch`
(and hence by the current tool built on it) passes the configured
`researchModel` string unchanged as the model identifier. -/
theorem model_id_passed_unchanged
    (svc : ResearchService) (t p : String) (env : ChatModelRegistryEnv)
    (m m2 : String)
    (h1 : Event.getClientCall m ∈ (svc.runResearch t p env).trace)
    (h2 : Event.getClientCall m2 ∈ (executeResearchRun t p svc env).2.1) :
    m = svc.options.researchModel ∧ m2 = svc.options.researchModel := by
  refine ⟨runResearch_getClient_mem _ _ _ _ _ h1, ?_⟩
  rcases executeResearchRun_trace t p svc env with h | h
  · rw [h] at h2; simp at h2
  · rw [h] at h2; exact runResearch_getClient_mem _ _ _ _ _ h2

/-- C5 witness: a concrete service configured with `"research-model-x"`
passes exactly that string to the registry lookup, both directly and
through the current tool. -/
theorem model_id_passed_unchanged_witness :
    "research-model-x" = svc0.options.researchModel ∧
    "research-model-x" = svc0.options.researchModel :=
  model_id_passed_unchanged svc0 "t" "p" svcEnvOk "research-model-x" "research-model-x"
    (by simp [ResearchService.runResearch, svcEnvOk, okClient, svc0])
    (by simp [executeResearchRun, ResearchService.runResearch, svcEnvOk, okClient, svc0])

/-- C6 counterexample: the legacy tool handler (`src/tools/research.ts`),
called with an empty `topic`, returns a structured error result — it does
not raise. -/
theorem legacy_validation_returns_instead_of_raising :
    (executeTool { topic := some "", prompt := some "p" } toolEnvOk).1 =
      Except.ok (ResearchResult.error "" "Topic is required"
        "Failed to generate research, topic is required") := by rfl

/-- C6 amended: the current tool definition (`src/unnamed/part_003`) raises
a synchronous validation error (with an empty effect trace) on missing or
empty topic/prompt, while the legacy tool handler (`src/tools/research.ts`)
instead returns a structured error-status result. -/
theorem current_tool_raises_on_validation
    (t p : String) (svc : ResearchService) (env : ChatModelRegistryEnv)
    (args : ResearchArgs) (env2 : ModelRegistryEnv)
    (h1 : t = "" ∨ p = "")
    (h2 : strFalsy args.topic = true ∨ strFalsy args.prompt = true) :
    (∃ msg, (executeResearchRun t p svc env).1 = Except.error msg ∧
      (executeResearchRun t p svc env).2.1 = []) ∧
    (∃ r, (executeTool args env2).1 = Except.ok r ∧ r.isError = true) := by
  constructor
  · unfold executeResearchRun
    rcases h1 with h | h
    · subst h; simp
    · subst h
      by_cases hT : (t == "") = true <;> simp [hT]
  · unfold executeTool
    rcases h2 with h | h
    · simp [h, ResearchResult.isError]
    · by_cases hT : strFalsy args.topic = true <;>
        simp [hT, h, ResearchResult.isError]

/-- C6 amended witness: an empty prompt makes the current tool throw and
the legacy handler return an error-status result. -/
theorem current_tool_raises_on_validation_witness :
    (∃ msg, (executeResearchRun "x" "" svc0 svcEnvOk).1 = Except.error msg ∧
      (executeResearchRun "x" "" svc0 svcEnvOk).2.1 = []) ∧
    (∃ r, (executeTool { topic := some "x", prompt := some "" } toolEnvOk).1 =
        Except.ok r ∧ r.isError = true) :=
  current_tool_raises_on_validation "x" "" svc0 svcEnvOk
    { topic := some "x", prompt := some "" } toolEnvOk (Or.inr rfl) (Or.inr rfl)

/-- C7: every chat payload dispatched by either handler generation contains
exactly two messages: first a `"system"` message whose content is a fixed
constant (`legacySystemContent` / `serviceSystemContent`, both independent
of the inputs), then a `"user"` message. -/
theorem payload_two_messages_fixed_system
    (t p : String) (env : ModelRegistryEnv) (svc : ResearchService)
    (env2 : ChatModelRegistryEnv) (req req2 : ChatRequest)
    (h1 : Event.textChatCall req ∈
      (executeTool { topic := some t, prompt := some p } env).2)
    (h2 : Event.textChatCall req2 ∈ (svc.runResearch t p env2).trace) :
    (req.messages.map ChatMessage.role = ["system", "user"] ∧
      (req.messages.map ChatMessage.content).head? = some legacySystemContent) ∧
    (req2.messages.map ChatMessage.role = ["system", "user"] ∧
      (req2.messages.map ChatMessage.content).head? = some serviceSystemContent) := by
  have e1 := executeTool_textChat_mem _ _ _ h1
  have e2 := runResearch_textChat_mem _ _ _ _ _ h2
  subst e1; subst e2
  constructor <;> constructor <;> simp [legacyChatRequest, serviceChatRequest]

/-- C7 witness: the payloads dispatched for `("t","p")` have the two-message
system-then-user shape in both handler generations. -/
theorem payload_two_messages_fixed_system_witness :
    (((legacyChatRequest ((some "t").getD "") ((some "p").getD "")).messages.map
        ChatMessage.role = ["system", "user"]) ∧
      ((legacyChatRequest ((some "t").getD "") ((some "p").getD "")).messages.map
        ChatMessage.content).head? = some legacySystemContent) ∧
    (((serviceChatRequest "t" "p").messages.map ChatMessage.role = ["system", "user"]) ∧
      ((serviceChatRequest "t" "p").messages.map ChatMessage.content).head? =
        some serviceSystemContent) :=
  payload_two_messages_fixed_system "t" "p" toolEnvOk svc0 svcEnvOk
    (legacyChatRequest ((some "t").getD "") ((some "p").getD ""))
    (serviceChatRequest "t" "p")
    (by simp [executeTool, toolEnvOk, okClient, strFalsy])
    (by simp [ResearchService.runResearch, svcEnvOk, okClient, svc0])

/-- C8: in every invocation of either handler generation the chat dispatch
happens at most once and the registry lookup happens at most once — no
retry of a failed dispatch and no fallback lookup after a failed lookup. -/
theorem dispatch_at_most_once (args : ResearchArgs) (env : ModelRegistryEnv)
    (t p : String) (svc : ResearchService) (env2 : ChatModelRegistryEnv) :
    (executeTool args env).2.countP Event.isTextChat ≤ 1 ∧
    (executeTool args env).2.countP Event.isGetClient ≤ 1 ∧
    (executeResearchRun t p svc env2).2.1.countP Event.isTextChat ≤ 1 ∧
    (executeResearchRun t p svc env2).2.1.countP Event.isGetClient ≤ 1 := by
  refine ⟨(executeTool_calls_once args env).1, (executeTool_calls_once args env).2, ?_, ?_⟩ <;>
    rcases executeResearchRun_trace t p svc env2 with h | h <;> rw [h] <;>
      simp [runResearch_calls_once svc t p env2, (runResearch_calls_once svc t p env2).1,
        (runResearch_calls_once svc t p env2).2]

/-- C9: the configured `researchModel` is never modified by `runResearch`
or by the current tool built on it: for every call (succeeding or failing),
the service state afterwards carries the same `researchModel` as before. -/
theorem research_model_immutable (svc : ResearchService) (t p : String)
    (env : ChatModelRegistryEnv) :
    ((svc.runResearch t p env).service).options.researchModel =
      svc.options.researchModel ∧
    ((executeResearchRun t p svc env).2.2).options.researchModel =
      svc.options.researchModel := by
  constructor
  · unfold ResearchService.runResearch
    repeat' split <;> try simp_all
  · unfold executeResearchRun ResearchService.runResearch
    repeat' split <;> try simp_all

/-- C10: when `prompt` is missing/empty but a non-empty `topic` was
supplied, the legacy tool handler's validation-error result carries
`topic: ""` — not the supplied topic. -/
theorem prompt_error_topic_field_empty
    (t : String) (p : Option String) (env : ModelRegistryEnv)
    (ht : strFalsy (some t) = false) (hp : strFalsy p = true) :
    (executeTool { topic := some t, prompt := p } env).1 =
      Except.ok (ResearchResult.error "" "Prompt is required"
        "Failed to generate research, prompt is required") ∧
    ("" : String) ≠ t := by
  have ht' : (t == "") = false := ht
  constructor
  · unfold executeTool
    simp [ht, hp]
  · intro h
    subst h
    simp [strFalsy] at ht'

/-- C10 witness: topic `"x"` with an empty prompt yields the error result
whose `topic` field is `""`, not `"x"`. -/
theorem prompt_error_topic_field_empty_witness :
    (executeTool { topic := some "x", prompt := some "" } toolEnvOk).1 =
      Except.ok (ResearchResult.error "" "Prompt is required"
        "Failed to generate research, prompt is required") ∧
    ("" : String) ≠ "x" :=
  prompt_error_topic_field_empty "x" (some "") toolEnvOk rfl rfl
